import Mathlib

/-!
Verification of the task/retry engine (src/workflow/engine.py) and the
review coordinator pipeline (src/workflow/agents/main_coordinator.py,
src/workflow/infinite_improvement.py) of the ai-workflow-24h repository.

The Python code is shallowly embedded: dataclasses become structures,
`datetime.now()` timestamps become a monotone Nat clock passed in by the
caller, numeric scores (Python floats holding small decimal values) become
rationals, Python dicts that are used as keyed records become structures
with optional fields, and insertion-ordered dicts become association
lists.  Handler invocations and awaited agent jobs are modelled by their
outcome (`Except`): normal return or raised exception message.
-/

/- ===================================================================
   Part 1: the workflow engine (src/workflow/engine.py)
   =================================================================== -/

/-- TaskStatus enum (engine.py lines 16-22). -/
inductive TaskStatus where
  | pending
  | running
  | success
  | failed
  | retry
  | cancelled
deriving DecidableEq, Repr

/-- The EngineTask dataclass (engine.py lines 30-51).  `created_at`,
`started_at`, `completed_at` are clock readings (Nat time units);
`payload` is the opaque key-value bag handed to the handler; `result`
is the opaque success payload (modelled as a string). -/
structure EngineTask where
  id : String
  name : String
  type : String
  payload : List (String × String)
  status : TaskStatus := .pending
  priority : Int := 5
  created_at : Nat := 0
  started_at : Option Nat := none
  completed_at : Option Nat := none
  retry_count : Nat := 0
  max_retries : Nat := 3
  result : Option String := none
  error : Option String := none
deriving DecidableEq, Repr

/-- The engine statistics dict (engine.py lines 75-81).
`avg_processing_time` is initialised to 0 and never updated by the code. -/
structure Stats where
  total_tasks : Nat := 0
  completed_tasks : Nat := 0
  failed_tasks : Nat := 0
  retry_tasks : Nat := 0
  avg_processing_time : Nat := 0
deriving DecidableEq, Repr

/-- Outcome of one handler invocation: the handler returned a value, or it
raised an exception with the given message. -/
inductive HandlerOutcome where
  | ok (r : String)
  | raise (e : String)
deriving DecidableEq, Repr

/-- Everything one call of WorkflowEngine.process_task produces: the
mutated task, the mutated statistics, whether the task was re-put on the
queue (line 131), the backoff sleep performed (line 130), and the boolean
the routine returns. -/
structure ProcResult where
  task : EngineTask
  stats : Stats
  requeued : Bool
  sleep : Option Nat
  returned : Bool
deriving DecidableEq, Repr

/-- WorkflowEngine.process_task (engine.py lines 96-139), given the
handler outcome of this attempt.  `tStart` is the clock reading for
`started_at` (line 100) and `tEnd` the reading for `completed_at`
(lines 113 and 135); the caller guarantees tStart ≤ tEnd because the
wall clock is monotone.  On success: result, `success`, completed_at,
completed counter.  On exception: error is set, then if
retry_count < max_retries the count is incremented, status becomes
`retry`, the retry counter is bumped, the routine sleeps
2 ^ retry_count (with the already-incremented count) and re-enqueues
the task; otherwise status becomes `failed` with completed_at stamped
and the failed counter bumped. -/
def process_task (tk : EngineTask) (st : Stats) (tStart tEnd : Nat) :
    HandlerOutcome → ProcResult
  | .ok r =>
      let tk1 := { tk with
                    status := .running,
                    started_at := some tStart }
      { task := { tk1 with
                    status := .success,
                    result := some r,
                    completed_at := some tEnd },
        stats := { st with completed_tasks := st.completed_tasks + 1 },
        requeued := false,
        sleep := none,
        returned := true }
  | .raise e =>
      let tk1 := { tk with
                    status := .running,
                    started_at := some tStart,
                    error := some e }
      if tk1.retry_count < tk1.max_retries then
        { task := { tk1 with
                      retry_count := tk1.retry_count + 1,
                      status := .retry },
          stats := { st with retry_tasks := st.retry_tasks + 1 },
          requeued := true,
          sleep := some (2 ^ (tk1.retry_count + 1)),
          returned := false }
      else
        { task := { tk1 with
                      status := .failed,
                      completed_at := some tEnd },
          stats := { st with failed_tasks := st.failed_tasks + 1 },
          requeued := false,
          sleep := none,
          returned := false }

/-- The exception message raised at engine.py line 105 when no handler is
registered for the task type. -/
def noHandlerMsg (taskType : String) : String :=
  "No handler for task type: " ++ taskType

/-- The handler lookup plus invocation of engine.py lines 103-108:
`task_handlers.get(task.type)` yields `handlerOpt`; a missing handler
raises the "no handler" ValueError inside the same try block, a present
handler is awaited on the payload. -/
def dispatchHandler (handlerOpt : Option (List (String × String) → HandlerOutcome))
    (payload : List (String × String)) (taskType : String) : HandlerOutcome :=
  match handlerOpt with
  | none => .raise (noHandlerMsg taskType)
  | some h => h payload

/-- One worker attempt on a task: process_task applied to the outcome of
the handler lookup and invocation. -/
def runTaskAttempt (tk : EngineTask) (st : Stats) (tStart tEnd : Nat)
    (handlerOpt : Option (List (String × String) → HandlerOutcome)) : ProcResult :=
  process_task tk st tStart tEnd (dispatchHandler handlerOpt tk.payload tk.type)

/-- State of a task after `n` consecutive failing handler invocations
(each raising message `e`), the workers re-processing the task exactly
as long as process_task re-enqueued it.  Timestamps do not matter for
the retry accounting, so the clock readings are fixed at 0. -/
def failTimes (e : String) : Nat → EngineTask → EngineTask
  | 0, tk => tk
  | n + 1, tk =>
      let r := process_task tk {} 0 0 (.raise e)
      if r.requeued then failTimes e n r.task else r.task

/-- A task as it sits in the queue awaiting (re)processing: no result,
no completion stamp, retry budget not exceeded.  Freshly added tasks
satisfy this, and process_task re-enqueues only such tasks. -/
def Processable (tk : EngineTask) : Prop :=
  tk.result = none ∧ tk.completed_at = none ∧ tk.retry_count ≤ tk.max_retries

/- Helper lemmas about consecutive failures. -/

/-- The task produced by the retry branch of process_task (clock fixed
at 0), as used in failTimes. -/
def retryStepTask (e : String) (tk : EngineTask) : EngineTask :=
  { tk with
      status := .retry,
      started_at := some 0,
      error := some e,
      retry_count := tk.retry_count + 1 }

/-- One failing attempt with retry budget left unfolds to a recursive
call on the retried task. -/
lemma failTimes_succ_of_lt (e : String) (n : Nat) (tk : EngineTask)
    (h : tk.retry_count < tk.max_retries) :
    failTimes e (n + 1) tk = failTimes e n (retryStepTask e tk) := by
  simp [failTimes, process_task, h, retryStepTask]

/-- One failing attempt with the budget exhausted terminates the run
with status `failed`. -/
lemma failTimes_succ_of_ge (e : String) (n : Nat) (tk : EngineTask)
    (h : ¬ tk.retry_count < tk.max_retries) :
    failTimes e (n + 1) tk =
      { tk with
          status := .failed,
          started_at := some 0,
          error := some e,
          completed_at := some 0 } := by
  simp [failTimes, process_task, h]

/-- While the retry budget suffices, `n` consecutive failures leave the
task re-enqueued with status `retry` and the count grown by `n`. -/
lemma failTimes_partial (e : String) (n : Nat) : ∀ tk : EngineTask,
    tk.retry_count + n ≤ tk.max_retries →
    (failTimes e n tk).retry_count = tk.retry_count + n ∧
    (failTimes e n tk).max_retries = tk.max_retries ∧
    (0 < n → (failTimes e n tk).status = TaskStatus.retry) := by
  induction n with
  | zero =>
      intro tk _
      simp [failTimes]
  | succ m ih =>
      intro tk h
      have hlt : tk.retry_count < tk.max_retries := by omega
      rw [failTimes_succ_of_lt e m tk hlt]
      have h2 := ih (retryStepTask e tk) (by simp [retryStepTask]; omega)
      have hrc : (retryStepTask e tk).retry_count = tk.retry_count + 1 := by
        simp [retryStepTask]
      have hmx : (retryStepTask e tk).max_retries = tk.max_retries := by
        simp [retryStepTask]
      refine ⟨by omega, by omega, ?_⟩
      intro _
      rcases Nat.eq_zero_or_pos m with hm | hm
      · subst hm
        simp [failTimes, retryStepTask]
      · exact h2.2.2 hm

/-- Once the retry budget is exhausted, the next failure is terminal:
status `failed`, retry count unchanged at max_retries, error recorded. -/
lemma failTimes_exhausted (e : String) (n : Nat) : ∀ tk : EngineTask,
    tk.retry_count + n = tk.max_retries →
    (failTimes e (n + 1) tk).status = TaskStatus.failed ∧
    (failTimes e (n + 1) tk).retry_count = tk.max_retries ∧
    (failTimes e (n + 1) tk).error = some e := by
  induction n with
  | zero =>
      intro tk h
      have hge : ¬ tk.retry_count < tk.max_retries := by omega
      rw [failTimes_succ_of_ge e 0 tk hge]
      simp
      omega
  | succ m ih =>
      intro tk h
      have hlt : tk.retry_count < tk.max_retries := by omega
      rw [failTimes_succ_of_lt e (m + 1) tk hlt]
      have h2 := ih (retryStepTask e tk) (by simp [retryStepTask]; omega)
      simpa [retryStepTask] using h2

/-- Concrete fresh task used for the engine counterexamples, with the
spec scenario budget max_retries = 2. -/
def taskK2 : EngineTask :=
  { id := "t1", name := "n", type := "data_processing", payload := [],
    max_retries := 2 }

/-- C1 counterexample state: the task after the handler raised "boom" on
2 consecutive invocations. -/
def taskK2after2 : EngineTask := failTimes "boom" 2 taskK2

/-- C1 (counterexample): with max_retries = k = 2, after exactly k = 2
consecutive handler failures the task status is `retry` (the task is
re-enqueued for another attempt), not the terminal `failed` the claim
asserts; the terminal failure only happens on the (k+1)-th failure. -/
theorem retry_bound_cex :
    taskK2.max_retries = 2 ∧
    taskK2after2.status = TaskStatus.retry ∧
    taskK2after2.status ≠ TaskStatus.failed ∧
    taskK2after2.retry_count = 2 := by
  refine ⟨rfl, ?_, ?_, ?_⟩ <;> decide

/-- C1 (amended): for a fresh task with max_retries = k whose handler
raises on every invocation, the task reaches terminal status `failed`
with retry_count = k only after k + 1 consecutive handler failures (the
initial attempt plus k retries); after n consecutive failures with
1 ≤ n ≤ k the status is the non-terminal `retry` with retry_count = n,
and the task becomes `failed` exactly when a handler failure occurs
while retry_count already equals max_retries. -/
theorem retry_bound_amended (e : String) (tk : EngineTask) (k : Nat)
    (h0 : tk.retry_count = 0) (hk : tk.max_retries = k) :
    (failTimes e (k + 1) tk).status = TaskStatus.failed ∧
    (failTimes e (k + 1) tk).retry_count = k ∧
    (failTimes e (k + 1) tk).error = some e ∧
    (∀ n, 1 ≤ n → n ≤ k →
      (failTimes e n tk).status = TaskStatus.retry ∧
      (failTimes e n tk).retry_count = n) := by
  have hex := failTimes_exhausted e k tk (by omega)
  refine ⟨hex.1, by omega, hex.2.2, ?_⟩
  intro n h1 h2
  have hp := failTimes_partial e n tk (by omega)
  exact ⟨hp.2.2 (by omega), by omega⟩

/-- C1 witness: the amended statement evaluated for the always-failing
handler scenario with max_retries = 2: failed with retry_count = 2 after
3 failures, still retry after 2 failures. -/
theorem retry_bound_amended_witness :
    (failTimes "boom" 3 taskK2).status = TaskStatus.failed ∧
    (failTimes "boom" 3 taskK2).retry_count = 2 ∧
    (failTimes "boom" 2 taskK2).status = TaskStatus.retry := by
  have h := retry_bound_amended "boom" taskK2 2 rfl rfl
  exact ⟨h.1, h.2.1, (h.2.2.2 2 (by omega) (by omega)).1⟩

/-- C3: on a failed attempt with retry budget remaining, process_task
sleeps exactly 2 ^ retry_count time units measured after the increment
(engine.py lines 125 and 130), hence 2 ^ (old count + 1), which is
2 ^ 1 before the first retry; and the backoff amount 2 ^ n is
monotonically non-decreasing in n. -/
theorem backoff_exact_and_monotone (tk : EngineTask) (st : Stats)
    (tStart tEnd : Nat) (e : String)
    (h : tk.retry_count < tk.max_retries) :
    (process_task tk st tStart tEnd (.raise e)).sleep =
      some (2 ^ ((process_task tk st tStart tEnd (.raise e)).task.retry_count)) ∧
    (process_task tk st tStart tEnd (.raise e)).task.retry_count =
      tk.retry_count + 1 ∧
    (∀ m n : Nat, m ≤ n → (2 : Nat) ^ m ≤ 2 ^ n) := by
  refine ⟨?_, ?_, ?_⟩
  · simp [process_task, h]
  · simp [process_task, h]
  · intro m n hmn
    exact Nat.pow_le_pow_right (by omega) hmn

/-- C3 witness: a fresh task (retry_count 0, max_retries 2) failing its
first attempt sleeps 2 ^ 1 time units. -/
theorem backoff_exact_and_monotone_witness :
    (process_task taskK2 {} 0 0 (.raise "boom")).sleep = some 2 ∧
    (process_task taskK2 {} 0 0 (.raise "boom")).task.retry_count = 1 := by
  have h := backoff_exact_and_monotone taskK2 {} 0 0 "boom" (by decide)
  exact ⟨by rw [h.1, h.2.1]; rfl, h.2.1⟩

/-- C4: a task whose type has no registered handler fails exactly like a
task whose handler raises the "no handler" ValueError message: the whole
ProcResult (task mutation, statistics, re-enqueueing, backoff sleep,
return value) is identical, the error field records the message, and the
retry accounting is the standard one: status `retry` with backoff and
re-enqueue while retry_count < max_retries, terminal `failed` otherwise.
Nothing distinguishes it from a transient failure. -/
theorem missing_handler_generic_failure (tk : EngineTask) (st : Stats)
    (tStart tEnd : Nat) :
    runTaskAttempt tk st tStart tEnd none =
      runTaskAttempt tk st tStart tEnd
        (some (fun _ => .raise (noHandlerMsg tk.type))) ∧
    (runTaskAttempt tk st tStart tEnd none).task.error =
      some (noHandlerMsg tk.type) ∧
    (tk.retry_count < tk.max_retries →
      (runTaskAttempt tk st tStart tEnd none).task.status = TaskStatus.retry ∧
      (runTaskAttempt tk st tStart tEnd none).requeued = true ∧
      (runTaskAttempt tk st tStart tEnd none).sleep =
        some (2 ^ (tk.retry_count + 1)) ∧
      (runTaskAttempt tk st tStart tEnd none).stats.retry_tasks =
        st.retry_tasks + 1) ∧
    (¬ tk.retry_count < tk.max_retries →
      (runTaskAttempt tk st tStart tEnd none).task.status = TaskStatus.failed ∧
      (runTaskAttempt tk st tStart tEnd none).requeued = false ∧
      (runTaskAttempt tk st tStart tEnd none).stats.failed_tasks =
        st.failed_tasks + 1) := by
  refine ⟨rfl, ?_, ?_, ?_⟩
  · by_cases h : tk.retry_count < tk.max_retries <;>
      simp [runTaskAttempt, dispatchHandler, process_task, h]
  · intro h
    simp [runTaskAttempt, dispatchHandler, process_task, h]
  · intro h
    simp [runTaskAttempt, dispatchHandler, process_task, h]

/-- C4 witness: the no-handler attempt on the concrete fresh task (budget
remaining) is retried with backoff and carries the "no handler" message. -/
theorem missing_handler_generic_failure_witness :
    (runTaskAttempt taskK2 {} 0 0 none).task.error =
      some (noHandlerMsg "data_processing") ∧
    (runTaskAttempt taskK2 {} 0 0 none).task.status = TaskStatus.retry ∧
    (runTaskAttempt taskK2 {} 0 0 none).requeued = true := by
  have h := missing_handler_generic_failure taskK2 {} 0 0
  have h3 := h.2.2.1 (by decide)
  exact ⟨h.2.1, h3.1, h3.2.1⟩

/-- C2 counterexample run, step 1: the handler raises "boom" on the
first attempt of a fresh task (budget 3), so the task is retried. -/
def taskFailOnce : ProcResult :=
  process_task
    { id := "t2", name := "n", type := "data_processing", payload := [] }
    {} 0 1 (.raise "boom")

/-- C2 counterexample run, step 2: the retried task succeeds. -/
def taskThenSucceeds : ProcResult :=
  process_task taskFailOnce.task taskFailOnce.stats 2 3 (.ok "done")

/-- C2 (counterexample): a task that fails on one attempt and then
succeeds on a retry reaches terminal status `success` with BOTH result
and error set, because process_task records the exception message at
engine.py line 121 and the success branch (lines 111-113) never clears
it.  This violates the claimed exactly-one-of-result-error invariant and
the claimed "error unset" for the fail-then-succeed scenario. -/
theorem terminal_invariant_cex :
    taskFailOnce.requeued = true ∧
    taskThenSucceeds.task.status = TaskStatus.success ∧
    taskThenSucceeds.task.result = some "done" ∧
    taskThenSucceeds.task.error = some "boom" := by
  refine ⟨?_, ?_, ?_, ?_⟩ <;> decide

/-- C2 (amended): for every queued task (no result, no completion stamp,
retry budget not exceeded) processed under a monotone clock:
retry_count ≤ max_retries is preserved; at terminal `failed` the error is
set and the result is not (exactly one holds); at terminal `success` the
result is set; started_at ≤ completed_at whenever both are present; a
re-enqueued task is again a valid queued task; but on success the error
field keeps whatever message an earlier failed attempt left, so at
terminal `success` the error is unset only if no attempt ever failed. -/
theorem terminal_invariant_amended (tk : EngineTask) (st : Stats)
    (tStart tEnd : Nat) (o : HandlerOutcome)
    (hp : Processable tk) (hclock : tStart ≤ tEnd) :
    (process_task tk st tStart tEnd o).task.retry_count ≤
      (process_task tk st tStart tEnd o).task.max_retries ∧
    ((process_task tk st tStart tEnd o).task.status = TaskStatus.failed →
      (process_task tk st tStart tEnd o).task.error ≠ none ∧
      (process_task tk st tStart tEnd o).task.result = none) ∧
    ((process_task tk st tStart tEnd o).task.status = TaskStatus.success →
      (process_task tk st tStart tEnd o).task.result ≠ none) ∧
    (∀ a b, (process_task tk st tStart tEnd o).task.started_at = some a →
      (process_task tk st tStart tEnd o).task.completed_at = some b →
      a ≤ b) ∧
    ((process_task tk st tStart tEnd o).requeued = true →
      Processable (process_task tk st tStart tEnd o).task) ∧
    (∀ r, o = .ok r →
      (process_task tk st tStart tEnd o).task.error = tk.error) := by
  obtain ⟨hres, hcomp, hbudget⟩ := hp
  cases o with
  | ok r =>
      refine ⟨by simpa [process_task] using hbudget, ?_, ?_, ?_, ?_, ?_⟩
      · intro h
        simp [process_task] at h
      · intro _
        simp [process_task]
      · intro a b ha hb
        simp [process_task] at ha hb
        omega
      · intro h
        simp [process_task] at h
      · intro r2 _
        simp [process_task]
  | raise e =>
      by_cases h : tk.retry_count < tk.max_retries
      · refine ⟨?_, ?_, ?_, ?_, ?_, ?_⟩
        · simp [process_task, h]
          omega
        · intro hst
          simp [process_task, h] at hst
        · intro hst
          simp [process_task, h] at hst
        · intro a b ha hb
          simp [process_task, h] at ha hb
          rw [hcomp] at hb
          exact absurd hb (by simp)
        · intro _
          simp [process_task, h, Processable, hres, hcomp]
          omega
        · intro r2 hr
          simp at hr
      · refine ⟨?_, ?_, ?_, ?_, ?_, ?_⟩
        · simpa [process_task, h] using hbudget
        · intro _
          simp [process_task, h, hres]
        · intro hst
          simp [process_task, h] at hst
        · intro a b ha hb
          simp [process_task, h] at ha hb
          omega
        · intro hrq
          simp [process_task, h] at hrq
        · intro r2 hr
          simp at hr

/-- C2 witness: the amended invariants evaluated on a concrete fresh
task succeeding at its first attempt at clock times 0 and 1. -/
theorem terminal_invariant_amended_witness :
    Processable taskK2 ∧ (0 : Nat) ≤ 1 ∧
    ((process_task taskK2 {} 0 1 (.ok "done")).task.status =
        TaskStatus.success →
      (process_task taskK2 {} 0 1 (.ok "done")).task.result ≠ none) := by
  refine ⟨⟨rfl, rfl, by decide⟩, by omega, ?_⟩
  exact (terminal_invariant_amended taskK2 {} 0 1 (.ok "done")
    ⟨rfl, rfl, by decide⟩ (by omega)).2.2.1

/- ===================================================================
   Part 2: the review coordinator
   (src/workflow/agents/main_coordinator.py)
   =================================================================== -/

/-- The result dict one agent job returns, restricted to the keys
integrate_analysis_results reads (main_coordinator.py lines 349-379):
`score` stands for the agent-specific score key (story_score,
grammar_score, consistency_score, timeline_score, correlation_score,
reader_score), present iff that key is in the dict; `issues` stands
for the agent-specific issue-list key (plot_issues, error_types,
issues, continuity_issues, connection_issues) and `suggestions` for
the writer's suggestion list. -/
structure AgentResult where
  score : Option ℚ := none
  issues : List String := []
  suggestions : List String := []
deriving DecidableEq, Repr

/-- One slot of the collected parallel results (lines 257-266): either
the error entry built from a captured exception, or the job's result
dict unchanged. -/
inductive Slot where
  | err (msg : String)
  | res (r : AgentResult)
deriving DecidableEq, Repr

/-- The outcome of each of the 16 parallel jobs handed to
asyncio.gather (lines 205-254): a normal result or a raised exception
message.  The readers list holds the 10 persona jobs in order. -/
structure JobOutcomes where
  writer : Except String AgentResult
  grammar : Except String AgentResult
  world_setting : Except String AgentResult
  history : Except String AgentResult
  correlation : Except String AgentResult
  readers : List (Except String AgentResult)
  setting_improvement : Except String AgentResult

/-- The parallel_results dict (lines 257-266). -/
structure ParallelResults where
  writer : Slot
  grammar : Slot
  world_setting : Slot
  history : Slot
  correlation : Slot
  readers : List Slot
  setting_improvement : Slot
deriving DecidableEq, Repr

/-- How one gather slot is collected (lines 258-265): an exception
becomes the error entry with the exception's message, anything else is
kept unchanged. -/
def collate : Except String AgentResult → Slot
  | .ok r => .res r
  | .error e => .err e

/-- MainCoordinatorAgent.execute_parallel_analysis, result-collection
step (lines 252-270): gather with return_exceptions=True never aborts
the batch; each slot is collated independently of all others. -/
def execute_parallel_analysis (o : JobOutcomes) : ParallelResults :=
  { writer := collate o.writer,
    grammar := collate o.grammar,
    world_setting := collate o.world_setting,
    history := collate o.history,
    correlation := collate o.correlation,
    readers := o.readers.map collate,
    setting_improvement := collate o.setting_improvement }

/-- Reading the agent-specific score key from a slot: an error entry
has no score key. -/
def scoreOf : Slot → Option ℚ
  | .err _ => none
  | .res r => r.score

/-- Reading the agent-specific issue-list key from a slot (defaulting
to the empty list, as dict.get does). -/
def issuesOf : Slot → List String
  | .err _ => []
  | .res r => r.issues

/-- Reading the writer's suggestion list from a slot. -/
def suggestionsOf : Slot → List String
  | .err _ => []
  | .res r => r.suggestions

/-- One entry of the priority_fixes list (lines 393-398). -/
structure PriorityFix where
  area : String
  score : ℚ
  priority : String
deriving DecidableEq, Repr

/-- The entry the loop at lines 393-398 appends for one
under-threshold area: the area name, its score, and the tier tag, high
below 7.0 and medium otherwise. -/
def fixEntry (x : String × ℚ) : PriorityFix :=
  { area := x.1, score := x.2,
    priority := if x.2 < 7 then "high" else "medium" }

/-- One iteration of the loop at lines 392-398: append an entry when
the area scores below 8.0, leave the list unchanged otherwise. -/
def fixStep (acc : List PriorityFix) (x : String × ℚ) : List PriorityFix :=
  if x.2 < 8 then acc ++ [fixEntry x] else acc

/-- The loop at main_coordinator.py lines 391-398: iterate the scores
dict in insertion order, appending an entry for every area scoring
below 8.0. -/
def priorityFixesOf (scores : List (String × ℚ)) : List PriorityFix :=
  scores.foldl fixStep []

/-- One conditional entry of the scores dict (lines 349-372): the area
key is inserted exactly when the agent slot carries its score key. -/
def optScoreEntry (area : String) (s : Option ℚ) : List (String × ℚ) :=
  match s with
  | some v => [(area, v)]
  | none => []

/-- The integrated_result dict (lines 400-409); the timestamp field is
a wall-clock reading and is left out of the model. -/
structure IntegratedResult where
  overall_score : ℚ
  detailed_scores : List (String × ℚ)
  priority_fixes : List PriorityFix
  total_issues : Nat
  issues_summary : List String
  improvement_suggestions : List String
  reader_feedback_count : Nat
deriving DecidableEq, Repr

/-- MainCoordinatorAgent.integrate_analysis_results (lines 340-413).
The scores dict is an insertion-ordered association list: story,
grammar, world_consistency, timeline, correlation, then the average of
the present reader persona scores under the key reader_average.  The
overall score is the mean of the collected scores, or the fixed
default 7.0 when no job contributed a score. -/
def integrate_analysis_results (p : ParallelResults) : IntegratedResult :=
  let structuralScores :=
    optScoreEntry "story" (scoreOf p.writer) ++
    optScoreEntry "grammar" (scoreOf p.grammar) ++
    optScoreEntry "world_consistency" (scoreOf p.world_setting) ++
    optScoreEntry "timeline" (scoreOf p.history) ++
    optScoreEntry "correlation" (scoreOf p.correlation)
  let reader_scores := p.readers.filterMap scoreOf
  let scores := structuralScores ++
    (if reader_scores.isEmpty then []
     else [("reader_average", reader_scores.sum / (reader_scores.length : ℚ))])
  let issues :=
    (if (scoreOf p.writer).isSome then issuesOf p.writer else []) ++
    (if (scoreOf p.grammar).isSome then issuesOf p.grammar else []) ++
    (if (scoreOf p.world_setting).isSome then issuesOf p.world_setting else []) ++
    (if (scoreOf p.history).isSome then issuesOf p.history else []) ++
    (if (scoreOf p.correlation).isSome then issuesOf p.correlation else [])
  let suggestions :=
    if (scoreOf p.writer).isSome then suggestionsOf p.writer else []
  { overall_score :=
      if scores.isEmpty then 7
      else (scores.map Prod.snd).sum / (scores.length : ℚ),
    detailed_scores := scores,
    priority_fixes := priorityFixesOf scores,
    total_issues := issues.length,
    issues_summary := issues.take 5,
    improvement_suggestions := suggestions.take 10,
    reader_feedback_count := reader_scores.length }

/-- One loop iteration only ever appends to the accumulated list. -/
lemma fixStep_append (acc : List PriorityFix) (x : String × ℚ) :
    fixStep acc x = acc ++ fixStep [] x := by
  unfold fixStep
  split <;> simp

/-- The whole loop only ever appends to the accumulated list. -/
lemma foldl_fixStep (scores : List (String × ℚ)) :
    ∀ acc : List PriorityFix,
      scores.foldl fixStep acc = acc ++ scores.foldl fixStep [] := by
  induction scores with
  | nil => intro acc; simp
  | cons x xs ih =>
      intro acc
      rw [List.foldl_cons, ih (fixStep acc x), List.foldl_cons,
        ih (fixStep [] x), fixStep_append acc x, List.append_assoc]

/-- The insertion-order loop of lines 391-398 computes exactly: filter
the scores below 8, tag each with its priority tier. -/
lemma priorityFixesOf_eq_filter (scores : List (String × ℚ)) :
    priorityFixesOf scores =
      (scores.filter (fun x => decide (x.2 < 8))).map fixEntry := by
  induction scores with
  | nil => rfl
  | cons x xs ih =>
      have hcons : priorityFixesOf (x :: xs) =
          fixStep [] x ++ priorityFixesOf xs := by
        show (x :: xs).foldl fixStep [] = _
        rw [List.foldl_cons, foldl_fixStep]
        rfl
      rw [hcons, ih]
      by_cases h : x.2 < 8
      · simp [fixStep, h, List.filter_cons]
      · simp [fixStep, h, List.filter_cons]

/-- Projection of integrate: the overall score is the default 7 when no
score was collected, else the mean of the collected scores. -/
lemma integrate_overall (p : ParallelResults) :
    (integrate_analysis_results p).overall_score =
      if (integrate_analysis_results p).detailed_scores.isEmpty then 7
      else ((integrate_analysis_results p).detailed_scores.map Prod.snd).sum /
        (((integrate_analysis_results p).detailed_scores.length : ℚ)) := rfl

/-- Projection of integrate: the priority-fix list is the under-8 loop
over the collected scores. -/
lemma integrate_fixes (p : ParallelResults) :
    (integrate_analysis_results p).priority_fixes =
      priorityFixesOf (integrate_analysis_results p).detailed_scores := rfl

/-- C6: whenever at least one area score was collected, the overall
score equals the unweighted arithmetic mean of the area scores, and the
reader-persona scores enter that mean as the single pre-averaged
reader_average area entry. -/
theorem overall_score_is_mean (p : ParallelResults)
    (h : (integrate_analysis_results p).detailed_scores ≠ []) :
    (integrate_analysis_results p).overall_score =
      ((integrate_analysis_results p).detailed_scores.map Prod.snd).sum /
        (((integrate_analysis_results p).detailed_scores.length : ℚ)) ∧
    (p.readers.filterMap scoreOf ≠ [] →
      ("reader_average",
        (p.readers.filterMap scoreOf).sum /
          ((p.readers.filterMap scoreOf).length : ℚ)) ∈
        (integrate_analysis_results p).detailed_scores) := by
  constructor
  · rw [integrate_overall]
    simp [h]
  · intro hr
    simp only [integrate_analysis_results]
    simp only [List.isEmpty_eq_true, hr, if_neg, ite_false]
    exact List.mem_append_right _ (by simp)

/-- Concrete batch for the C6 witness: three structural jobs scoring 8,
6 and 9, every other job failed. -/
def pMean : ParallelResults :=
  { writer := .res { score := some 8 },
    grammar := .res { score := some 6 },
    world_setting := .res { score := some 9 },
    history := .err "boom",
    correlation := .err "boom",
    readers := [],
    setting_improvement := .err "boom" }

/-- C6 witness: area scores 8, 6, 9 give overall score 23/3 (7.67 up to
rounding), their arithmetic mean. -/
theorem overall_score_is_mean_witness :
    (integrate_analysis_results pMean).detailed_scores =
      [("story", 8), ("grammar", 6), ("world_consistency", 9)] ∧
    (integrate_analysis_results pMean).overall_score = 23 / 3 := by
  have hds : (integrate_analysis_results pMean).detailed_scores =
      [("story", 8), ("grammar", 6), ("world_consistency", 9)] := by
    simp [integrate_analysis_results, pMean, scoreOf, optScoreEntry]
  have h := (overall_score_is_mean pMean (by rw [hds]; simp)).1
  refine ⟨hds, ?_⟩
  rw [h, hds]
  norm_num

/-- Concrete batch for the C7 counterexample: the story area scores 7
(medium tier) and the grammar area scores 6 (high tier); story precedes
grammar in the scores dict insertion order. -/
def pFixOrder : ParallelResults :=
  { writer := .res { score := some 7 },
    grammar := .res { score := some 6 },
    world_setting := .err "boom",
    history := .err "boom",
    correlation := .err "boom",
    readers := [],
    setting_improvement := .err "boom" }

/-- C7 (counterexample): the priority-fix list does contain exactly the
areas below 8.0 with the right tiers, but it is emitted in the scores
dict insertion order (story first), not lowest score first: the entry
with score 7 precedes the entry with score 6. -/
theorem priority_fix_order_cex :
    (integrate_analysis_results pFixOrder).priority_fixes =
      [{ area := "story", score := 7, priority := "medium" },
       { area := "grammar", score := 6, priority := "high" }] ∧
    ¬ List.Sorted (· ≤ ·)
        ((integrate_analysis_results pFixOrder).priority_fixes.map
          PriorityFix.score) := by
  have hfix : (integrate_analysis_results pFixOrder).priority_fixes =
      [{ area := "story", score := 7, priority := "medium" },
       { area := "grammar", score := 6, priority := "high" }] := by
    norm_num [integrate_analysis_results, pFixOrder, scoreOf, optScoreEntry,
      priorityFixesOf, fixStep, fixEntry]
  refine ⟨hfix, ?_⟩
  rw [hfix]
  simp [List.sorted_cons]
  norm_num

/-- C7 (amended): the priority-fix list contains exactly the areas whose
collected score is below 8.0, each tagged high when its score is below
7.0 and medium otherwise, in the deterministic insertion order of the
scores dict (story, grammar, world_consistency, timeline, correlation,
reader_average) — not sorted by ascending score. -/
theorem priority_fix_selection_amended (p : ParallelResults) :
    (integrate_analysis_results p).priority_fixes =
      ((integrate_analysis_results p).detailed_scores.filter
        (fun x => decide (x.2 < 8))).map fixEntry := by
  rw [integrate_fixes, priorityFixesOf_eq_filter]

/-- C10: when no parallel job contributed a score (every slot is an
error entry or lacks its score key, and no reader persona scored), the
integration phase neither fails nor reports zero: the score map is
empty, the overall score is the fixed default 7.0 and the priority-fix
list is empty. -/
theorem no_scores_default_seven (p : ParallelResults)
    (hw : scoreOf p.writer = none) (hg : scoreOf p.grammar = none)
    (hws : scoreOf p.world_setting = none) (hh : scoreOf p.history = none)
    (hc : scoreOf p.correlation = none)
    (hr : p.readers.filterMap scoreOf = []) :
    (integrate_analysis_results p).detailed_scores = [] ∧
    (integrate_analysis_results p).overall_score = 7 ∧
    (integrate_analysis_results p).priority_fixes = [] := by
  simp [integrate_analysis_results, hw, hg, hws, hh, hc, hr, optScoreEntry,
    priorityFixesOf]

/-- Concrete batch for the C10 witness: every one of the 16 jobs raised,
so every slot is an error entry. -/
def pAllFailed : ParallelResults :=
  { writer := .err "e1",
    grammar := .err "e2",
    world_setting := .err "e3",
    history := .err "e4",
    correlation := .err "e5",
    readers := List.replicate 10 (.err "e6"),
    setting_improvement := .err "e7" }

/-- C10 witness: the all-failed batch integrates to the default overall
score 7 with no priority fixes. -/
theorem no_scores_default_seven_witness :
    (integrate_analysis_results pAllFailed).overall_score = 7 ∧
    (integrate_analysis_results pAllFailed).priority_fixes = [] := by
  have h := no_scores_default_seven pAllFailed rfl rfl rfl rfl rfl
    (by simp [pAllFailed, scoreOf])
  exact ⟨h.2.1, h.2.2⟩

/-- Shared helper: with at least one collected score, the overall score
is the mean of the collected scores. -/
lemma overall_eq_mean_of_ne (p : ParallelResults)
    (h : (integrate_analysis_results p).detailed_scores ≠ []) :
    (integrate_analysis_results p).overall_score =
      ((integrate_analysis_results p).detailed_scores.map Prod.snd).sum /
        (((integrate_analysis_results p).detailed_scores.length : ℚ)) := by
  rw [integrate_overall]
  simp [h]

/-- Position of one job in the 16-job parallel batch of
execute_parallel_analysis (main_coordinator.py lines 205-254): the five
structural jobs, the ten reader-persona jobs (indexed 0..9), and the
setting-improvement scan. -/
inductive JobIdx where
  | writer
  | grammar
  | world_setting
  | history
  | correlation
  | reader (i : Nat)
  | setting_improvement
deriving DecidableEq, Repr

/-- The outcome at one job position (none for an out-of-range reader
index). -/
def getOutcome (o : JobOutcomes) : JobIdx → Option (Except String AgentResult)
  | .writer => some o.writer
  | .grammar => some o.grammar
  | .world_setting => some o.world_setting
  | .history => some o.history
  | .correlation => some o.correlation
  | .reader i => o.readers[i]?
  | .setting_improvement => some o.setting_improvement

/-- Replacing the outcome at one job position. -/
def setOutcome (o : JobOutcomes) (v : Except String AgentResult) :
    JobIdx → JobOutcomes
  | .writer => { o with writer := v }
  | .grammar => { o with grammar := v }
  | .world_setting => { o with world_setting := v }
  | .history => { o with history := v }
  | .correlation => { o with correlation := v }
  | .reader i => { o with readers := o.readers.set i v }
  | .setting_improvement => { o with setting_improvement := v }

/-- The collected slot at one job position. -/
def getSlot (p : ParallelResults) : JobIdx → Option Slot
  | .writer => some p.writer
  | .grammar => some p.grammar
  | .world_setting => some p.world_setting
  | .history => some p.history
  | .correlation => some p.correlation
  | .reader i => p.readers[i]?
  | .setting_improvement => some p.setting_improvement

/-- A job position that exists in the batch (reader indices in range). -/
def idxValid (o : JobOutcomes) : JobIdx → Prop
  | .reader i => i < o.readers.length
  | _ => True

/-- Each collected slot is the collation of its own job's outcome and
of nothing else. -/
lemma getSlot_parallel (o : JobOutcomes) (j : JobIdx) :
    getSlot (execute_parallel_analysis o) j = (getOutcome o j).map collate := by
  cases j <;> simp [getSlot, execute_parallel_analysis, getOutcome]

/-- Reading back the replaced position. -/
lemma getOutcome_set_self (o : JobOutcomes) (v : Except String AgentResult)
    (j : JobIdx) (hv : idxValid o j) :
    getOutcome (setOutcome o v j) j = some v := by
  cases j <;>
    simp [getOutcome, setOutcome, idxValid, List.getElem?_set] at hv ⊢ <;>
    simp [hv]

/-- Replacing one position leaves every other position unchanged. -/
lemma getOutcome_set_ne (o : JobOutcomes) (v : Except String AgentResult)
    (j j2 : JobIdx) (h : j2 ≠ j) :
    getOutcome (setOutcome o v j) j2 = getOutcome o j2 := by
  cases j <;> cases j2 <;>
    simp_all [getOutcome, setOutcome, List.getElem?_set] <;>
    intro hne <;> simp_all [Ne.symm h]

/-- C5: in a parallel-analysis batch where the job at position j raises
msg and the other jobs behave as in o, the batch completes with job j's
slot holding the error entry carrying the exception's message, every
other job's slot holding that job's own result unchanged, and the
overall score computed as the mean of the area scores collected from
the jobs that did contribute scores. -/
theorem parallel_partial_failure_isolation (o : JobOutcomes) (j : JobIdx)
    (msg : String) (hv : idxValid o j) :
    getSlot (execute_parallel_analysis (setOutcome o (.error msg) j)) j =
      some (.err msg) ∧
    (∀ j2, j2 ≠ j →
      getSlot (execute_parallel_analysis (setOutcome o (.error msg) j)) j2 =
        getSlot (execute_parallel_analysis o) j2) ∧
    (∀ j2 r, j2 ≠ j → getOutcome o j2 = some (.ok r) →
      getSlot (execute_parallel_analysis (setOutcome o (.error msg) j)) j2 =
        some (.res r)) ∧
    ((integrate_analysis_results
        (execute_parallel_analysis (setOutcome o (.error msg) j))).detailed_scores
          ≠ [] →
      (integrate_analysis_results
        (execute_parallel_analysis (setOutcome o (.error msg) j))).overall_score =
      ((integrate_analysis_results
        (execute_parallel_analysis
          (setOutcome o (.error msg) j))).detailed_scores.map Prod.snd).sum /
      (((integrate_analysis_results
        (execute_parallel_analysis
          (setOutcome o (.error msg) j))).detailed_scores.length : ℚ))) := by
  refine ⟨?_, ?_, ?_, ?_⟩
  · rw [getSlot_parallel, getOutcome_set_self o (.error msg) j hv]
    rfl
  · intro j2 h2
    rw [getSlot_parallel, getSlot_parallel, getOutcome_set_ne o (.error msg) j j2 h2]
  · intro j2 r h2 hr
    rw [getSlot_parallel, getOutcome_set_ne o (.error msg) j j2 h2, hr]
    rfl
  · exact overall_eq_mean_of_ne _

/-- Concrete 16-job batch for the C5 witness: every job returns a
result; reader persona 3 will be made to raise. -/
def oBatch : JobOutcomes :=
  { writer := .ok { score := some 8 },
    grammar := .ok { score := some 6 },
    world_setting := .ok { score := some 9 },
    history := .ok { score := none },
    correlation := .ok { score := none },
    readers := List.replicate 10 (.ok { score := some 5 }),
    setting_improvement := .ok { score := none } }

/-- C5 witness: with reader persona 3 raising "persona boom", its slot
records the error entry with that message, the writer slot still holds
the writer's own result, and the overall score is the mean of the
collected area scores. -/
theorem parallel_partial_failure_isolation_witness :
    getSlot (execute_parallel_analysis
      (setOutcome oBatch (.error "persona boom") (.reader 3))) (.reader 3) =
      some (.err "persona boom") ∧
    getSlot (execute_parallel_analysis
      (setOutcome oBatch (.error "persona boom") (.reader 3))) .writer =
      some (.res { score := some 8 }) := by
  have h := parallel_partial_failure_isolation oBatch (.reader 3) "persona boom"
    (by simp [idxValid, oBatch])
  exact ⟨h.1, h.2.2.1 .writer { score := some 8 } (by simp) rfl⟩

/- ===================================================================
   Part 3: top-level dispatch of MainCoordinatorAgent.execute
   (main_coordinator.py lines 86-97, 99-156, 448-476)
   =================================================================== -/

/-- The task dict handed to MainCoordinatorAgent.execute, restricted to
the keys the dispatch paths read. -/
structure CoordTask where
  type : String
  episode_number : Option Nat := none
  target_episodes : Option (List Nat) := none
deriving DecidableEq, Repr

/-- A Python exception escaping a coordinator call: the AttributeError
raised when a dispatch target method does not exist, or the
ZeroDivisionError from dividing by an empty result list. -/
inductive PyError where
  | attributeError (msg : String)
  | zeroDivision
deriving DecidableEq, Repr

/-- Combined outcome of the five phases inside
coordinate_episode_improvement (lines 111-135), which call out to the
sub-agents: the integrated overall score and the improvement list on
normal completion, or the message of a raised exception.  The phase
internals are modelled separately (execute_parallel_analysis,
integrate_analysis_results); here only their combined outcome matters. -/
structure CycleData where
  overall_score : ℚ := 0
  improvements_made : List String := []
deriving DecidableEq, Repr

/-- The result dict coordinate_episode_improvement returns, restricted
to the keys the claims read (cycle_duration_minutes is a wall-clock
reading and is left out). -/
structure ImproveDict where
  status : Option String := none
  error : Option String := none
  episode_number : Option Nat := none
  final_score : Option ℚ := none
  improvements_made : List String := []
deriving DecidableEq, Repr

/-- MainCoordinatorAgent.coordinate_episode_improvement (lines 99-156).
A falsy episode number (absent or 0) returns an error dict before the
try block; otherwise the whole phase body sits in a try and ANY
exception is caught at line 150 and returned as the structured
status/error dict, so this method itself never raises. -/
def MainCoordinator.coordinate_episode_improvement (task : CoordTask)
    (phases : Except String CycleData) : ImproveDict :=
  if task.episode_number.getD 0 = 0 then
    { error := some "episode number required" }
  else
    match phases with
    | .ok d =>
        { episode_number := task.episode_number,
          improvements_made := d.improvements_made,
          final_score := some d.overall_score,
          status := some "success" }
    | .error e =>
        { episode_number := task.episode_number,
          status := some "error",
          error := some e }

/-- The aggregate dict coordinate_full_review_cycle returns. -/
structure FullCycleDict where
  cycle_results : List ImproveDict
  total_episodes : Nat
  average_score : ℚ
  total_improvements : Nat
  status : String
deriving DecidableEq, Repr

/-- MainCoordinatorAgent.coordinate_full_review_cycle (lines 448-476):
runs coordinate_episode_improvement per target episode (default
[1, 2, 3]); the final aggregate divides by len(cycle_results), which
raises ZeroDivisionError when the caller passed an empty episode list.
The per-episode phase outcomes are supplied by `phases`. -/
def MainCoordinator.coordinate_full_review_cycle (task : CoordTask)
    (phases : Nat → Except String CycleData) : Except PyError FullCycleDict :=
  let eps := task.target_episodes.getD [1, 2, 3]
  let results := eps.map (fun n =>
    MainCoordinator.coordinate_episode_improvement
      { type := "improve_episode", episode_number := some n } (phases n))
  if results.length = 0 then
    .error .zeroDivision
  else
    .ok { cycle_results := results,
          total_episodes := eps.length,
          average_score :=
            (results.map (fun r => r.final_score.getD 0)).sum /
              (results.length : ℚ),
          total_improvements :=
            (results.map (fun r => r.improvements_made.length)).sum,
          status := "completed" }

/-- The value MainCoordinatorAgent.execute hands back to its caller. -/
inductive ExecOutput where
  | dict (d : ImproveDict)
  | full (d : FullCycleDict)
deriving DecidableEq, Repr

/-- MainCoordinatorAgent.execute (lines 86-97).  The dispatch itself has
no try/except.  The branch for task type analyze_episode calls
self.coordinate_episode_analysis, a method that is defined nowhere in
the class or its bases, so attribute lookup raises AttributeError and
the exception propagates to the caller.  An unknown task type returns a
plain error dict without raising. -/
def MainCoordinator.execute (task : CoordTask)
    (phases : Nat → Except String CycleData) : Except PyError ExecOutput :=
  if task.type = "improve_episode" then
    .ok (.dict (MainCoordinator.coordinate_episode_improvement task
      (phases (task.episode_number.getD 0))))
  else if task.type = "analyze_episode" then
    .error (.attributeError
      "MainCoordinatorAgent object has no attribute coordinate_episode_analysis")
  else if task.type = "full_review_cycle" then
    (MainCoordinator.coordinate_full_review_cycle task phases).map .full
  else
    .ok (.dict { error := some ("Unknown task type: " ++ task.type) })

/-- C8 (counterexample): dispatching the task type analyze_episode makes
execute raise (AttributeError from the missing
coordinate_episode_analysis method) instead of returning a structured
error result, so execute does not catch escaping exceptions. -/
theorem execute_raises_cex :
    MainCoordinator.execute { type := "analyze_episode" } (fun _ => .ok {}) =
      .error (.attributeError
        "MainCoordinatorAgent object has no attribute coordinate_episode_analysis") ∧
    (MainCoordinator.execute { type := "analyze_episode" }
      (fun _ => .ok {})).isOk = false := by
  exact ⟨rfl, rfl⟩

/-- C8 (amended): execute has no try/except of its own.  It raises
exactly when the dispatch target does: for task type analyze_episode
(AttributeError: the target method does not exist) and for task type
full_review_cycle with an explicitly empty episode list
(ZeroDivisionError in the aggregate).  For every other task type it
returns a structured result without raising; in particular exceptions
escaping the improve_episode cycle body are caught inside
coordinate_episode_improvement and returned as a status/error dict, and
an unknown task type yields an error-message dict. -/
theorem execute_raises_iff (task : CoordTask)
    (phases : Nat → Except String CycleData) :
    ((∃ e, MainCoordinator.execute task phases = .error e) ↔
      (task.type = "analyze_episode" ∨
       (task.type = "full_review_cycle" ∧ task.target_episodes = some []))) ∧
    (∀ msg n, task.type = "improve_episode" → task.episode_number = some n →
      n ≠ 0 →
      MainCoordinator.execute task (fun _ => .error msg) =
        .ok (.dict { episode_number := some n, status := some "error",
                     error := some msg })) := by
  constructor
  · constructor
    · rintro ⟨e, he⟩
      by_cases h1 : task.type = "improve_episode"
      · simp [MainCoordinator.execute, h1] at he
      · by_cases h2 : task.type = "analyze_episode"
        · exact Or.inl h2
        · by_cases h3 : task.type = "full_review_cycle"
          · refine Or.inr ⟨h3, ?_⟩
            rcases htg : task.target_episodes with _ | eps
            · simp [MainCoordinator.execute, h1, h2, h3, htg,
                MainCoordinator.coordinate_full_review_cycle, Except.map] at he
            · rcases eps with _ | ⟨x, xs⟩
              · rfl
              · simp [MainCoordinator.execute, h1, h2, h3, htg,
                  MainCoordinator.coordinate_full_review_cycle, Except.map] at he
          · simp [MainCoordinator.execute, h1, h2, h3] at he
    · rintro (h | ⟨h, htg⟩)
      · have h1 : ¬ task.type = "improve_episode" := by rw [h]; simp
        exact ⟨.attributeError
          "MainCoordinatorAgent object has no attribute coordinate_episode_analysis",
          by simp [MainCoordinator.execute, h1, h]⟩
      · have h1 : ¬ task.type = "improve_episode" := by rw [h]; simp
        have h2 : ¬ task.type = "analyze_episode" := by rw [h]; simp
        exact ⟨.zeroDivision, by
          simp [MainCoordinator.execute, h1, h2, h, htg,
            MainCoordinator.coordinate_full_review_cycle, Except.map]⟩
  · intro msg n h1 h2 h3
    simp [MainCoordinator.execute, h1, h2,
      MainCoordinator.coordinate_episode_improvement, h3]

/-- C8 witness: the amended statement evaluated concretely: an
improve_episode task for episode 1 whose cycle body raises "boom" is
answered with the structured status/error dict, not an exception. -/
theorem execute_raises_iff_witness :
    MainCoordinator.execute
      { type := "improve_episode", episode_number := some 1 }
      (fun _ => .error "boom") =
      .ok (.dict { episode_number := some 1, status := some "error",
                   error := some "boom" }) := by
  exact (execute_raises_iff
    { type := "improve_episode", episode_number := some 1 }
    (fun _ => .error "boom")).2 "boom" 1 rfl rfl (by omega)

/- ===================================================================
   Part 4: the infinite-improvement driver
   (src/workflow/infinite_improvement.py)
   =================================================================== -/

/-- One value of the detailed_scores dict of a review result, with the
keys perform_improvement_actions reads (infinite_improvement.py lines
225-231): score, description, weight. -/
structure ScoreDetail where
  score : ℚ := 0
  description : String := ""
  weight : ℚ := 0
deriving DecidableEq, Repr

/-- The review dict system.review_single_episode returns, restricted to
the keys improve_single_episode and its two improvement actions read. -/
structure ReviewResult where
  overall_score : ℚ := 0
  detailed_scores : List (String × ScoreDetail) := []
deriving DecidableEq, Repr

/-- One entry of the low_score_areas list (lines 227-232). -/
structure LowArea where
  criterion : String
  score : ℚ
  description : String
  weight : ℚ
deriving DecidableEq, Repr

/-- An entry appended to the per-episode improvement history (lines
189-196); the wall-clock timestamp string is left out. -/
structure ImprovementRecord where
  iteration : Nat
  old_score : ℚ
  new_score : ℚ
  improvement : ℚ
deriving DecidableEq, Repr

/-- The improvement task dict handed to
EpisodeImproverAgent.improve_episode (lines 244-249 and 280-285). -/
structure ImprovementTask where
  episode_number : Nat
  target_areas : List LowArea
  target_score : ℚ
deriving DecidableEq, Repr

/-- Python dict assignment d[k] = v on an insertion-ordered
association list: overwrite in place if the key exists, else append. -/
def dictSet (m : List (Nat × α)) (k : Nat) (v : α) : List (Nat × α) :=
  if (m.lookup k).isSome then
    m.map (fun kv => if kv.1 = k then (k, v) else kv)
  else m ++ [(k, v)]

/-- The mutable state of InfiniteImprovementSystem that
improve_single_episode reads and writes (lines 31-48).  Clock readings
are Nat seconds, so the 2-hour staleness bound of line 209 is 7200. -/
structure ImpSt where
  target_score : ℚ
  iteration_count : Nat := 0
  best_scores : List (Nat × ℚ) := []
  last_improvement_time : List (Nat × Nat) := []
  improvement_history : List (Nat × ImprovementRecord) := []
deriving DecidableEq, Repr

/-- The low_score_areas computation of perform_improvement_actions
(lines 224-235): the criteria scoring below 8.0, stably sorted by
weight, largest weight first. -/
def low_score_areas (review : ReviewResult) : List LowArea :=
  ((review.detailed_scores.filter (fun c => decide (c.2.score < 8))).map
    (fun c => { criterion := c.1, score := c.2.score,
                description := c.2.description,
                weight := c.2.weight })).mergeSort
    (fun a b => decide (b.weight ≤ a.weight))

/-- The narrow improvement task built by perform_improvement_actions
(lines 244-249): only the top 2 low-score areas are targeted. -/
def narrowTask (target : ℚ) (ep : Nat) (review : ReviewResult) :
    ImprovementTask :=
  { episode_number := ep,
    target_areas := (low_score_areas review).take 2,
    target_score := target }

/-- The escalated task built by perform_intensive_improvement (lines
272-285): an empty target-area list (full-content improvement) and a
target capped by min(current + min(0.5, target - current), target). -/
def intensiveTask (target : ℚ) (ep : Nat) (review : ReviewResult) :
    ImprovementTask :=
  { episode_number := ep,
    target_areas := [],
    target_score :=
      min (review.overall_score + min (1 / 2) (target - review.overall_score))
        target }

/-- Which improvement invocation one pass of improve_single_episode
performs. -/
inductive ImproveCall where
  | noCall
  | narrow (t : ImprovementTask)
  | intensive (t : ImprovementTask)
deriving DecidableEq, Repr

/-- InfiniteImprovementSystem.improve_single_episode (lines 161-214):
returns the boolean the method returns, the mutated driver state, and
the improvement invocation made.  An episode at or above the target
score is only (sparsely) checked and never improved; a newly improved
or never-before-improved episode gets the narrow top-2-area action; an
episode whose last recorded improvement lies more than 7200 seconds
(2 hours) in the past gets the intensive full-scope action; otherwise
nothing is done. -/
def improve_single_episode (st : ImpSt) (ep : Nat) (review : ReviewResult)
    (now : Nat) : Bool × ImpSt × ImproveCall :=
  let current := review.overall_score
  if st.target_score ≤ current then
    (false, st, .noCall)
  else
    let best := (st.best_scores.lookup ep).getD 0
    if best < current then
      let st1 := { st with
        best_scores := dictSet st.best_scores ep current,
        improvement_history := st.improvement_history ++
          [(ep, { iteration := st.iteration_count, old_score := best,
                  new_score := current,
                  improvement := current - best })],
        last_improvement_time := dictSet st.last_improvement_time ep now }
      (true, st1, .narrow (narrowTask st.target_score ep review))
    else
      match st.last_improvement_time.lookup ep with
      | none => (true, st, .narrow (narrowTask st.target_score ep review))
      | some last =>
          if 7200 < now - last then
            (true, st, .intensive (intensiveTask st.target_score ep review))
          else
            (false, st, .noCall)

/-- C9: for a unit below its target score whose last measured score
improvement lies more than 2 hours (7200 seconds) in the past and whose
current review shows no new improvement, the next improvement attempt
is the escalated broad-scope one: the improver is invoked with an empty
target-area list instead of the narrow top-2-area task. -/
theorem stale_unit_escalates_broad (st : ImpSt) (ep : Nat)
    (review : ReviewResult) (now last : Nat)
    (hcur : review.overall_score < st.target_score)
    (hbest : review.overall_score ≤ (st.best_scores.lookup ep).getD 0)
    (hlast : st.last_improvement_time.lookup ep = some last)
    (hstale : 7200 < now - last) :
    improve_single_episode st ep review now =
      (true, st, .intensive (intensiveTask st.target_score ep review)) ∧
    (intensiveTask st.target_score ep review).target_areas = [] := by
  have h1 : ¬ st.target_score ≤ review.overall_score := not_le.mpr hcur
  have h2 : ¬ ((st.best_scores.lookup ep).getD 0 < review.overall_score) :=
    not_lt.mpr hbest
  exact ⟨by simp [improve_single_episode, h1, h2, hlast, hstale], rfl⟩

/-- Concrete driver state for the C9 witness: episode 1 last improved
at time 0, best score 7, target 9.5. -/
def stStale : ImpSt :=
  { target_score := 19 / 2,
    iteration_count := 3,
    best_scores := [(1, 7)],
    last_improvement_time := [(1, 0)] }

/-- C9 witness: at time 7201 (more than 2 hours after the last
improvement at time 0) with the review still scoring 7, episode 1 gets
the intensive invocation with an empty target-area list. -/
theorem stale_unit_escalates_broad_witness :
    improve_single_episode stStale 1 { overall_score := 7 } 7201 =
      (true, stStale,
        .intensive (intensiveTask (19 / 2) 1 { overall_score := 7 })) ∧
    (intensiveTask (19 / 2) 1 { overall_score := 7 }).target_areas = [] := by
  have h := stale_unit_escalates_broad stStale 1 { overall_score := 7 } 7201 0
    (by norm_num [stStale])
    (by norm_num [stStale])
    (by simp [stStale])
    (by omega)
  exact h
